import Mathlib

/-!
Verification of `src/static/js/scripts.js` (emcitone-app client helpers).

The script wires three DOM behaviors on page load and exposes two helper
functions.  We embed each event handler as a pure function on an explicit
state record, and the two helpers as pure string functions, translated
directly from the source.
-/

namespace Emcitone

/-- The icon markup the toggle handler writes when the input is revealed
(`this.innerHTML = '<i class="fas fa-eye-slash"></i>'`, scripts.js line 10). -/
def iconEyeSlash : String := "<i class=\"fas fa-eye-slash\"></i>"

/-- The icon markup the toggle handler writes when the input is masked
(`this.innerHTML = '<i class="fas fa-eye"></i>'`, scripts.js line 13). -/
def iconEye : String := "<i class=\"fas fa-eye\"></i>"

/-- State of one toggle control and its surroundings: `inputType` is the
`type` property of `this.previousElementSibling` (`none` when the control has
no preceding element sibling, in which case the sibling reference is `null`),
and `innerHTML` is the control's own markup. -/
structure ToggleState where
  inputType : Option String
  innerHTML : String
deriving DecidableEq, Repr

/-- A JavaScript runtime fault, as raised by reading a property of `null`. -/
inductive JsError where
  | typeError (msg : String)
deriving DecidableEq, Repr

/-- The `.toggle-password` click handler (scripts.js lines 6–15):
`const input = this.previousElementSibling;` then
`if (input.type === 'password') { input.type = 'text'; this.innerHTML = eyeSlash }
else { input.type = 'password'; this.innerHTML = eye }`.
Reading `.type` when the sibling is `null` throws a `TypeError`. -/
def toggleClick (s : ToggleState) : Except JsError ToggleState :=
  match s.inputType with
  | none => .error (.typeError "Cannot read properties of null (reading type)")
  | some t =>
    if t = "password" then
      .ok ⟨some "text", iconEyeSlash⟩
    else
      .ok ⟨some "password", iconEye⟩

/-- Iterated execution of the toggle click handler (`n` successive clicks),
propagating a runtime fault if one occurs. -/
def toggleClicks : Nat → ToggleState → Except JsError ToggleState
  | 0, s => .ok s
  | n + 1, s =>
    match toggleClick s with
    | .ok s' => toggleClicks n s'
    | .error e => .error e

/-- The icon displayed by a toggle control agrees with its input's masking
mode: masked (`password`) shows the open-eye icon, revealed (`text`) shows
the closed-eye icon. -/
def agreesWithIcon (s : ToggleState) : Prop :=
  (s.inputType = some "password" ∧ s.innerHTML = iconEye) ∨
  (s.inputType = some "text" ∧ s.innerHTML = iconEyeSlash)

instance (s : ToggleState) : Decidable (agreesWithIcon s) := by
  unfold agreesWithIcon; infer_instance

/-- JavaScript truthiness of a `dataset` entry: `undefined` (attribute
absent) and the empty string are falsy, every other string is truthy. -/
def jsTruthy : Option String → Bool
  | none => false
  | some s => !s.isEmpty

/-- Outcome of one `.btn-danger` click: whether `confirm` was invoked, and
whether `e.preventDefault()` was called. -/
structure ClickOutcome where
  dialogShown : Bool
  defaultPrevented : Bool
deriving DecidableEq, Repr

/-- The `.btn-danger` click handler (scripts.js lines 27–33):
`if (this.dataset.confirm) { if (!confirm(this.dataset.confirm)) e.preventDefault() }`.
`dataConfirm` is `this.dataset.confirm` (`none` when the `data-confirm`
attribute is absent); `userAffirms` is the user's answer to `confirm`. -/
def deleteClick (dataConfirm : Option String) (userAffirms : Bool) : ClickOutcome :=
  if jsTruthy dataConfirm then
    if !userAffirms then ⟨true, true⟩ else ⟨true, false⟩
  else
    ⟨false, false⟩

/-- Split a character list into the groups separated by `'-'`. -/
def splitOnDash : List Char → List (List Char)
  | [] => [[]]
  | c :: rest =>
    if c = '-' then [] :: splitOnDash rest
    else
      match splitOnDash rest with
      | [] => [[c]]
      | g :: gs => (c :: g) :: gs

/-- Read a non-empty all-digit character list as a natural number. -/
def digitsToNat : List Char → Option Nat
  | [] => none
  | cs =>
    if cs.all Char.isDigit then
      some (cs.foldl (fun acc c => acc * 10 + (c.toNat - 48)) 0)
    else none

/-- Modelled from the spec: the browser's `Date` constructor applied to a
date-like string, restricted to the ISO `YYYY-MM-DD` shape the spec
exercises; any string not of that shape yields an invalid date (`none`). -/
def jsParseDate (s : String) : Option (Nat × Nat × Nat) :=
  match splitOnDash s.data with
  | [y, m, d] =>
    match digitsToNat y, digitsToNat m, digitsToNat d with
    | some yn, some mn, some dn =>
      if 1 ≤ mn ∧ mn ≤ 12 ∧ 1 ≤ dn ∧ dn ≤ 31 then some (yn, mn, dn) else none
    | _, _, _ => none
  | _ => none

/-- English abbreviated month name, as produced by `month: 'short'`. -/
def monthShort : Nat → String
  | 1 => "Jan"
  | 2 => "Feb"
  | 3 => "Mar"
  | 4 => "Apr"
  | 5 => "May"
  | 6 => "Jun"
  | 7 => "Jul"
  | 8 => "Aug"
  | 9 => "Sep"
  | 10 => "Oct"
  | 11 => "Nov"
  | 12 => "Dec"
  | _ => ""

/-- Modelled from the spec: `Date.prototype.toLocaleDateString(undefined,
{ year: 'numeric', month: 'short', day: 'numeric' })` in the default
(English) runtime locale; an invalid date renders as `"Invalid Date"`. -/
def toLocaleDateStringShort : Option (Nat × Nat × Nat) → String
  | none => "Invalid Date"
  | some (y, m, d) => monthShort m ++ " " ++ toString d ++ ", " ++ toString y

/-- The helper `formatDate` (scripts.js lines 38–41):
`return new Date(dateString).toLocaleDateString(undefined, options)` with
`options = { year: 'numeric', month: 'short', day: 'numeric' }`. -/
def formatDate (dateString : String) : String :=
  toLocaleDateStringShort (jsParseDate dateString)

/-- The page world as `showToast` can observe it: the developer console's
records and an abstract rendering of the document. -/
structure Page where
  console : List String
  dom : List String
deriving DecidableEq, Repr

/-- The helper `showToast` (scripts.js lines 44–47): logs the record
`"[" + type + "] " + message` to the console and touches nothing else. -/
def showToast (message ty : String) (p : Page) : Page :=
  ⟨p.console ++ ["[" ++ ty ++ "] " ++ message], p.dom⟩

/-- A call to `showToast` with the severity tag omitted: the parameter
defaults to `"info"` (`type = 'info'`). -/
def showToastDefault (message : String) (p : Page) : Page :=
  showToast message "info" p

/-- C1: clicking a toggle control whose preceding sibling input is masked
(`password`) reveals it (`text`) and shows the closed-eye icon; clicking one
whose input is revealed masks it and shows the open-eye icon — one click
flips the masking mode and sets the icon to match the new mode. -/
theorem toggle_click_flips (icon : String) :
    toggleClick ⟨some "password", icon⟩ = .ok ⟨some "text", iconEyeSlash⟩ ∧
    toggleClick ⟨some "text", icon⟩ = .ok ⟨some "password", iconEye⟩ :=
  ⟨rfl, rfl⟩

/-- C2 counterexample: a toggle control with a valid preceding input of type
`text` whose icon is the open-eye icon: two clicks yield the closed-eye icon,
not the original one, so the handler is not an involution on the
(type, icon) pair. -/
theorem toggle_double_click_not_involutive :
    toggleClicks 2 ⟨some "text", iconEye⟩ ≠ .ok (⟨some "text", iconEye⟩ : ToggleState) := by
  intro h
  have h2 : toggleClicks 2 (⟨some "text", iconEye⟩ : ToggleState) =
      .ok (⟨some "text", iconEyeSlash⟩ : ToggleState) := rfl
  rw [h2] at h
  have : iconEyeSlash = iconEye := congrArg ToggleState.innerHTML (Except.ok.inj h)
  exact absurd this (by decide)

/-- C2 amended: for every toggle control with a valid preceding input whose
displayed icon agrees with the input's masking mode, two clicks restore the
original masking mode and the original icon. -/
theorem toggle_double_click_id (s : ToggleState) (h : agreesWithIcon s) :
    toggleClicks 2 s = .ok s := by
  obtain ⟨t, i⟩ := s
  rcases h with ⟨ht, hi⟩ | ⟨ht, hi⟩ <;> cases ht <;> cases hi <;> rfl

/-- C2 witness: two clicks restore the masked state with the open-eye icon. -/
theorem toggle_double_click_id_witness :
    toggleClicks 2 ⟨some "password", iconEye⟩ =
      .ok (⟨some "password", iconEye⟩ : ToggleState) :=
  toggle_double_click_id ⟨some "password", iconEye⟩ (Or.inl ⟨rfl, rfl⟩)

/-- C3: for a danger-action element carrying a non-empty confirmation prompt,
a click presents the dialog, and the default action is cancelled
(`preventDefault` is called) if and only if the user rejects the prompt. -/
theorem delete_click_prompt_iff (s : String) (u : Bool) (hs : s ≠ "") :
    (deleteClick (some s) u).dialogShown = true ∧
    (deleteClick (some s) u).defaultPrevented = !u := by
  have ht : jsTruthy (some s) = true := by
    simp only [jsTruthy]
    cases he : s.isEmpty
    · rfl
    · exact absurd ((String.isEmpty_iff s).mp he) hs
  cases u <;> simp [deleteClick, ht]

/-- C3 witness: with prompt "Delete this record?" and a rejecting user, the
dialog is shown and the default action is prevented. -/
theorem delete_click_prompt_iff_witness :
    (deleteClick (some "Delete this record?") false).dialogShown = true ∧
    (deleteClick (some "Delete this record?") false).defaultPrevented = !false :=
  delete_click_prompt_iff "Delete this record?" false (by decide)

/-- C4: for a danger-action element with no `data-confirm` attribute, the
click handler never presents a dialog and never cancels the default action,
whatever the user would have answered. -/
theorem delete_click_no_prompt (u : Bool) :
    deleteClick none u = ⟨false, false⟩ :=
  rfl

/-- C5: `formatDate "2024-03-05"` returns "Mar 5, 2024" (numeric year,
abbreviated month, numeric day) under the default locale. -/
theorem formatDate_iso_example : formatDate "2024-03-05" = "Mar 5, 2024" := by
  decide

/-- C6: on every unparseable input string, `formatDate` returns normally with
the string "Invalid Date"; as a total function it never throws. -/
theorem formatDate_invalid (s : String) (h : jsParseDate s = none) :
    formatDate s = "Invalid Date" := by
  simp [formatDate, toLocaleDateStringShort, h]

/-- C6 witness: "not-a-date" is unparseable and formats as "Invalid Date". -/
theorem formatDate_invalid_witness :
    jsParseDate "not-a-date" = none ∧ formatDate "not-a-date" = "Invalid Date" :=
  ⟨by decide, formatDate_invalid "not-a-date" (by decide)⟩

/-- C7: `showToast` appends exactly one console record, that record contains
both the severity tag and the message, the DOM is unchanged, and an omitted
tag defaults to "info". -/
theorem showToast_logs_once (msg ty : String) (p : Page) :
    (showToast msg ty p).console = p.console ++ ["[" ++ ty ++ "] " ++ msg] ∧
    (showToast msg ty p).dom = p.dom ∧
    (∃ a b, "[" ++ ty ++ "] " ++ msg = a ++ ty ++ b) ∧
    (∃ a b, "[" ++ ty ++ "] " ++ msg = a ++ msg ++ b) ∧
    showToastDefault msg p = showToast msg "info" p := by
  refine ⟨rfl, rfl, ⟨"[", "] " ++ msg, ?_⟩, ⟨"[" ++ ty ++ "] ", "", ?_⟩, rfl⟩
  · simp [String.append_assoc]
  · simp

/-- C8: agreement between a toggle control's icon and its input's masking
mode is preserved by every execution of the click handler: after any number
of clicks from an agreeing state, the handler succeeds and the resulting
state still agrees. -/
theorem toggle_clicks_preserve_agreement (n : Nat) (s : ToggleState)
    (h : agreesWithIcon s) :
    ∃ s', toggleClicks n s = .ok s' ∧ agreesWithIcon s' := by
  induction n generalizing s with
  | zero => exact ⟨s, rfl, h⟩
  | succ n ih =>
    obtain ⟨t, i⟩ := s
    rcases h with ⟨ht, hi⟩ | ⟨ht, hi⟩ <;> cases ht <;> cases hi
    · exact ih ⟨some "text", iconEyeSlash⟩ (Or.inr ⟨rfl, rfl⟩)
    · exact ih ⟨some "password", iconEye⟩ (Or.inl ⟨rfl, rfl⟩)

/-- C8 witness: three clicks from the masked, open-eye state succeed and
end in an agreeing state. -/
theorem toggle_clicks_preserve_agreement_witness :
    ∃ s', toggleClicks 3 ⟨some "password", iconEye⟩ = .ok s' ∧ agreesWithIcon s' :=
  toggle_clicks_preserve_agreement 3 ⟨some "password", iconEye⟩ (Or.inl ⟨rfl, rfl⟩)

/-- C9: clicking a toggle control with no preceding element sibling is a
runtime fault (the handler reads `.type` of `null`), while for any existing
preceding input the handler returns normally — the error branch is reachable
exactly when the sibling is missing. -/
theorem toggle_click_null_sibling_faults (icon : String) :
    (∃ e, toggleClick ⟨none, icon⟩ = .error e) ∧
    (∀ t, ∃ s', toggleClick ⟨some t, icon⟩ = .ok s') := by
  refine ⟨⟨_, rfl⟩, fun t => ?_⟩
  by_cases h : t = "password" <;> simp [toggleClick, h]

/-- C10: a danger-action element whose `data-confirm` attribute is the empty
string is treated exactly as one with no attribute: no dialog is shown and
the default action proceeds, because the handler guards on truthiness. -/
theorem delete_click_empty_prompt (u : Bool) :
    deleteClick (some "") u = deleteClick none u ∧
    deleteClick (some "") u = ⟨false, false⟩ :=
  ⟨rfl, rfl⟩

end Emcitone
